import Mathlib

/-!
A verification development for the MQTT v3.1.1 client core (`client.go`).

The client is shallowly embedded: the lifecycle status word, the message-id
registry, the persistence store, the route table and the user-facing API
(`Connect`, `Publish`, `Subscribe`, `SubscribeMultiple`, `Unsubscribe`) become
pure Lean functions over an explicit client state.  Network nondeterminism
(dial outcomes, CONNACK return codes, the enqueue-vs-timeout race of a Go
`select`) is made explicit as parameters: a broker is a function from
protocol level to the outcome of dialing and handshaking with it, a connect
or reconnect worker is driven by the list of return codes its successive
`attemptConnection` calls observe, and each enqueue is given the outcome of
its `select`.
-/

namespace Mqtt

/-- Connection status constants, in the order they are declared in the
source (`iota`). -/
def disconnected : Nat := 0

def connecting : Nat := 1

def reconnecting : Nat := 2

def connected : Nat := 3

/-- CONNACK return code for an accepted connection (`packets.Accepted`). -/
def rcAccepted : Nat := 0

/-- Sentinel return code for a network (dial) failure
(`packets.ErrNetworkError`). -/
def rcErrNetworkError : Nat := 254

/-- The control packets the client core stores and resends.  Only the fields
the core observes are modelled. -/
inductive Packet where
  | publish (id qos : Nat) (topic : String) (retain : Bool) (payload : List Nat)
  | subscribe (id : Nat) (topics : List String) (qoss : List Nat)
  | unsubscribe (id : Nat) (topics : List String)
  | pubrel (id : Nat)
  | other
deriving DecidableEq

/-- The message id of a packet (`Details().MessageID`). -/
def pktId : Packet → Nat
  | .publish id _ _ _ _ => id
  | .subscribe id _ _ => id
  | .unsubscribe id _ => id
  | .pubrel id => id
  | .other => 0

/-- The QoS reported by `Details()`: the publish QoS for a PUBLISH, and 1 for
the other acknowledged packet kinds. -/
def pktQos : Packet → Nat
  | .publish _ qos _ _ _ => qos
  | .subscribe _ _ _ => 1
  | .unsubscribe _ _ => 1
  | .pubrel _ => 1
  | .other => 0

/-- The payload bytes of a PUBLISH packet. -/
def pktPayload : Packet → List Nat
  | .publish _ _ _ _ pl => pl
  | _ => []

/-- Outcome of dialing one broker at a given protocol level: either the dial
itself fails, or a CONNACK with the given return code is observed. -/
inductive AttemptOutcome where
  | dialFail
  | connack (rc : Nat)

/-- The client options the core reads.  A server is modelled by the outcome
that dialing and handshaking with it at a given protocol level produces. -/
structure Options where
  Servers : List (Nat → AttemptOutcome)
  CleanSession : Bool
  AutoReconnect : Bool
  ConnectRetry : Bool
  ResumeSubs : Bool
  WriteTimeout : Nat
  MaxReconnectInterval : Nat
  ProtocolVersion : Nat
  protocolVersionExplicit : Bool

/-- The client state observed by the claims: the status word, the message-id
registry contents, the rotating id cursor, the persistence store, the route
table, whether the store is open, and the retained CONNACK code. -/
structure MState where
  status : Nat
  claimed : List Nat
  lastIssued : Nat
  store : List (String × Packet)
  routes : List String
  storeOpen : Bool
  initialRC : Nat
deriving DecidableEq

/-- Errors surfaced through tokens. -/
inductive MErr where
  | notConnected
  | noServers
  | noMessageIds
  | unknownPayloadType
  | brokenByTimeout
  | connAckError (rc : Nat)
  | resumeSubsNotSet
  | reconnectingCleanSession
  | invalidTopic
deriving DecidableEq

/-- One nanosecond-count second (`time.Second`). -/
def second : Nat := 1000000000

def midMax : Nat := 65535

/-- Modelled from the spec: `messageids.go` is not under `src/`.  Spec §4.1:
`claim(token)` scans the 16-bit id space starting from a rotating cursor for
a free slot and returns 0 when all ids are in use.  `scanID` performs the
scan with explicit fuel covering the whole id space. -/
def scanID (claimed : List Nat) : Nat → Nat → Nat
  | 0, _ => 0
  | fuel + 1, i =>
    let cand := i % midMax + 1
    if cand ∈ claimed then scanID claimed fuel (i + 1) else cand

/-- Modelled from the spec: `messageids.go` is not under `src/`.  Spec §4.1:
claim of a fresh id, scanning from the rotating cursor. -/
def getID (claimed : List Nat) (cursor : Nat) : Nat :=
  scanID claimed midMax cursor

/-- Modelled from the spec: `messageids.go` is not under `src/`.  Spec §4.1:
`claim_specific` records a specific id; on a collision the source silently
proceeds (spec §9), so the registry is left unchanged. -/
def claimID (claimed : List Nat) (id : Nat) : List Nat :=
  if id ∈ claimed then claimed else id :: claimed

/-- Outbound store key for a message id (`outboundKeyFromMID`). -/
def outboundKey (id : Nat) : String :=
  "o." ++ toString id

/-- Store lookup by key. -/
def lookupKey (s : List (String × Packet)) (k : String) : Option Packet :=
  (s.find? (fun kv => kv.1 == k)).map (fun kv => kv.2)

/-- Store `Put`: at most one packet per key. -/
def putKey (s : List (String × Packet)) (k : String) (p : Packet) :
    List (String × Packet) :=
  (k, p) :: s.filter (fun kv => kv.1 != k)

/-- Modelled from the spec: `persistence.go` is not under `src/`.  Spec §4.2:
every outbound QoS ≥ 1 packet is persisted under its outbound key before it
is handed to the pump; a QoS 0 PUBLISH is not stored. -/
def persistOutbound (s : List (String × Packet)) (p : Packet) :
    List (String × Packet) :=
  if 1 ≤ pktQos p then putKey s (outboundKey (pktId p)) p else s

/-- Modelled from the spec: `router.go` is not under `src/`.  Spec §4.3:
`add(filter, handler)` inserts the filter into the route table (replacing the
handler when the filter is already present; handlers are not modelled). -/
def addRoute (routes : List String) (topic : String) : List String :=
  if topic ∈ routes then routes else topic :: routes

/-- Modelled from the spec: `router.go` is not under `src/`.  Spec §4.3:
`delete(filter)` removes the filter from the route table. -/
def deleteRoute (routes : List String) (topic : String) : List String :=
  routes.filter (fun t => t != topic)

/-- Modelled from the spec: `topic.go` is not under `src/`.  Spec §7 lists
`InvalidTopic` for a subscribe filter failing grammar validation; validation
is modelled as: nonempty filter and QoS at most 2. -/
def validateTopicAndQos (topic : String) (qos : Nat) : Bool :=
  topic != "" && decide (qos ≤ 2)

/-- Modelled from the spec: `topic.go` is not under `src/`.  Validation of a
whole subscription map: nonempty and every entry valid. -/
def validateSubscribeMap (filters : List (String × Nat)) : Bool :=
  filters != [] && filters.all (fun f => validateTopicAndQos f.1 f.2)

/-- Model of `IsConnected` (source lines 188-202): connected now, or the automatic
machinery will bring the connection up. -/
def IsConnected (opts : Options) (status : Nat) : Bool :=
  if status == connected then true
  else if opts.AutoReconnect && decide (connecting < status) then true
  else if opts.ConnectRetry && status == connecting then true
  else false

/-- Model of `IsConnectionOpen` (source lines 206-216): the switch returns true only
in the `status == connected` case. -/
def IsConnectionOpen (status : Nat) : Bool :=
  if status == connected then true else false

/-- Model of `GetInitialRC` (source lines 165-167): the retained return code. -/
def GetInitialRC (st : MState) : Nat :=
  st.initialRC

/-- The `$share/<group>/` and `$queue/` stripping `Subscribe` performs before
adding a route (source lines 720-726). -/
def stripShared (topic : String) : String :=
  let t1 :=
    if topic.startsWith ("$share/") then
      String.intercalate ("/") ((topic.splitOn ("/")).drop 2)
    else topic
  if t1.startsWith ("$queue/") then t1.drop 7 else t1

/-- A `Publish` payload: the type switch of source lines 649-659. -/
inductive Payload where
  | str (s : String)
  | bytes (b : List Nat)
  | buffer (b : List Nat)
  | other
deriving DecidableEq

/-- Conversion of a string payload, modelled on code points. -/
def strBytes (s : String) : List Nat :=
  s.data.map Char.toNat

/-- The byte payload each accepted payload kind converts to. -/
def payloadBytes : Payload → List Nat
  | .str s => strBytes s
  | .bytes b => b
  | .buffer b => b
  | .other => []

/-- Outcome of the `select` racing an enqueue against the write-timeout
timer. -/
inductive EnqueueOutcome where
  | sent
  | timedOut
deriving DecidableEq

/-- The observable result of a user API call: the token error, the packet
that was built (none when the call errors out before reaching the store and
channels), whether the packet was handed to a channel, and the timeout the
enqueue `select` used (none when no `select` ran). -/
structure OpResult where
  err : Option MErr
  pkt : Option Packet
  enqueued : Bool
  wait : Option Nat
deriving DecidableEq

/-- The enqueue wait bound: the configured `WriteTimeout`, defaulting to 30
seconds when the option is zero (source lines 678-681 and analogues). -/
def writeTimeoutVal (opts : Options) : Nat :=
  if opts.WriteTimeout == 0 then 30 * second else opts.WriteTimeout

/-- Model of `Publish` (source lines 634-689), given the outcome of its enqueue
`select`. -/
def Publish (opts : Options) (st : MState) (topic : String) (qos : Nat)
    (retained : Bool) (payload : Payload) (enq : EnqueueOutcome) :
    MState × OpResult :=
  if !(IsConnected opts st.status) then
    (st, ⟨some .notConnected, none, false, none⟩)
  else if st.status == reconnecting && qos == 0 then
    (st, ⟨none, none, false, none⟩)
  else
    match payload with
    | .other => (st, ⟨some .unknownPayloadType, none, false, none⟩)
    | pl =>
      if qos != 0 then
        let mID := getID st.claimed st.lastIssued
        if mID == 0 then (st, ⟨some .noMessageIds, none, false, none⟩)
        else
          let pub := Packet.publish mID qos topic retained (payloadBytes pl)
          let st1 := { st with claimed := claimID st.claimed mID,
                               lastIssued := mID,
                               store := persistOutbound st.store pub }
          if st1.status == connecting || st1.status == reconnecting then
            (st1, ⟨none, some pub, false, none⟩)
          else
            match enq with
            | .sent => (st1, ⟨none, some pub, true, some (writeTimeoutVal opts)⟩)
            | .timedOut =>
              (st1, ⟨some .brokenByTimeout, some pub, false, some (writeTimeoutVal opts)⟩)
      else
        let pub := Packet.publish 0 0 topic retained (payloadBytes pl)
        let st1 := { st with store := persistOutbound st.store pub }
        if st1.status == connecting || st1.status == reconnecting then
          (st1, ⟨none, some pub, false, none⟩)
        else
          match enq with
          | .sent => (st1, ⟨none, some pub, true, some (writeTimeoutVal opts)⟩)
          | .timedOut =>
            (st1, ⟨some .brokenByTimeout, some pub, false, some (writeTimeoutVal opts)⟩)

/-- Model of `Subscribe` (source lines 693-765).  `callback` records whether a
message handler was supplied.  The SUBSCRIBE packet carries the topic as
supplied; only the route table receives the stripped topic. -/
def Subscribe (opts : Options) (st : MState) (topic : String) (qos : Nat)
    (callback : Bool) (enq : EnqueueOutcome) : MState × OpResult :=
  if !(IsConnected opts st.status) then
    (st, ⟨some .notConnected, none, false, none⟩)
  else if !(IsConnectionOpen st.status) && !opts.ResumeSubs then
    (st, ⟨some .resumeSubsNotSet, none, false, none⟩)
  else if !(IsConnectionOpen st.status) && (opts.CleanSession && st.status == reconnecting) then
    (st, ⟨some .reconnectingCleanSession, none, false, none⟩)
  else if !(validateTopicAndQos topic qos) then
    (st, ⟨some .invalidTopic, none, false, none⟩)
  else
    let st1 :=
      if callback then { st with routes := addRoute st.routes (stripShared topic) }
      else st
    let mID := getID st1.claimed st1.lastIssued
    if mID == 0 then (st1, ⟨some .noMessageIds, none, false, none⟩)
    else
      let sub := Packet.subscribe mID [topic] [qos]
      let st2 := { st1 with claimed := claimID st1.claimed mID,
                            lastIssued := mID,
                            store := persistOutbound st1.store sub }
      if st2.status == connecting || st2.status == reconnecting then
        (st2, ⟨none, some sub, false, none⟩)
      else
        match enq with
        | .sent => (st2, ⟨none, some sub, true, some (writeTimeoutVal opts)⟩)
        | .timedOut =>
          (st2, ⟨some .brokenByTimeout, some sub, false, some (writeTimeoutVal opts)⟩)

/-- Model of `SubscribeMultiple` (source lines 769-832).  A Go map of filters becomes
a list of (topic, qos) pairs; the route table receives each key exactly as
supplied. -/
def SubscribeMultiple (opts : Options) (st : MState)
    (filters : List (String × Nat)) (callback : Bool) (enq : EnqueueOutcome) :
    MState × OpResult :=
  if !(IsConnected opts st.status) then
    (st, ⟨some .notConnected, none, false, none⟩)
  else if !(IsConnectionOpen st.status) && !opts.ResumeSubs then
    (st, ⟨some .resumeSubsNotSet, none, false, none⟩)
  else if !(IsConnectionOpen st.status) && (opts.CleanSession && st.status == reconnecting) then
    (st, ⟨some .reconnectingCleanSession, none, false, none⟩)
  else if !(validateSubscribeMap filters) then
    (st, ⟨some .invalidTopic, none, false, none⟩)
  else
    let st1 :=
      if callback then
        { st with routes := filters.foldl (fun r f => addRoute r f.1) st.routes }
      else st
    let mID := getID st1.claimed st1.lastIssued
    if mID == 0 then (st1, ⟨some .noMessageIds, none, false, none⟩)
    else
      let sub := Packet.subscribe mID (filters.map (fun f => f.1))
        (filters.map (fun f => f.2))
      let st2 := { st1 with claimed := claimID st1.claimed mID,
                            lastIssued := mID,
                            store := persistOutbound st1.store sub }
      if st2.status == connecting || st2.status == reconnecting then
        (st2, ⟨none, some sub, false, none⟩)
      else
        match enq with
        | .sent => (st2, ⟨none, some sub, true, some (writeTimeoutVal opts)⟩)
        | .timedOut =>
          (st2, ⟨some .brokenByTimeout, some sub, false, some (writeTimeoutVal opts)⟩)

/-- Model of `Unsubscribe` (source lines 915-973).  The routes of the given topics
are deleted only in the branch where the UNSUBSCRIBE packet was handed to
the priority channel. -/
def Unsubscribe (opts : Options) (st : MState) (topics : List String)
    (enq : EnqueueOutcome) : MState × OpResult :=
  if !(IsConnected opts st.status) then
    (st, ⟨some .notConnected, none, false, none⟩)
  else if !(IsConnectionOpen st.status) && !opts.ResumeSubs then
    (st, ⟨some .resumeSubsNotSet, none, false, none⟩)
  else if !(IsConnectionOpen st.status) && (opts.CleanSession && st.status == reconnecting) then
    (st, ⟨some .reconnectingCleanSession, none, false, none⟩)
  else
    let mID := getID st.claimed st.lastIssued
    if mID == 0 then (st, ⟨some .noMessageIds, none, false, none⟩)
    else
      let unsub := Packet.unsubscribe mID topics
      let st1 := { st with claimed := claimID st.claimed mID,
                           lastIssued := mID,
                           store := persistOutbound st.store unsub }
      if st1.status == connecting || st1.status == reconnecting then
        (st1, ⟨none, some unsub, false, none⟩)
      else
        match enq with
        | .sent =>
          ({ st1 with routes := topics.foldl deleteRoute st1.routes },
            ⟨none, some unsub, true, some (writeTimeoutVal opts)⟩)
        | .timedOut =>
          (st1, ⟨some .brokenByTimeout, some unsub, false, some (writeTimeoutVal opts)⟩)

/-- Model of `reserveStoredPublishIDs` (source lines 835-854): when the session is
not clean, claim the message id of every PUBLISH packet in the store. -/
def reserveStoredPublishIDs (opts : Options) (store : List (String × Packet))
    (claimed : List Nat) : List Nat :=
  if !opts.CleanSession then
    store.foldl (fun acc kv =>
      match kv.2 with
      | Packet.publish id _ _ _ _ => claimID acc id
      | _ => acc) claimed
  else claimed

/-- The result of the `Connect` worker as seen through its token. -/
structure ConnResult where
  err : Option MErr
  returnCode : Nat
deriving DecidableEq

/-- The part of `Connect` that runs before the connect worker goroutine
(source lines 255-259): open the store, reserve stored PUBLISH ids when
`ConnectRetry` is set, and move to Connecting. -/
def connectSetup (opts : Options) (st : MState) : MState :=
  let st1 := { st with storeOpen := true }
  let st2 :=
    if opts.ConnectRetry then
      { st1 with claimed := reserveStoredPublishIDs opts st1.store st1.claimed }
    else st1
  { st2 with status := connecting }

/-- The success path of the connect worker (source lines 289-296): comms
workers start (status becomes Connected) and a clean session resets the
store.  The channel traffic of `resume` is not modelled. -/
def connectSuccess (opts : Options) (st : MState) : MState :=
  let st1 := { st with status := connected }
  if opts.CleanSession then { st1 with store := [] } else st1

/-- The `RETRYCONN` loop of the connect worker (source lines 267-303),
driven by the return codes its successive `attemptConnection` calls
observe (`rc = 0` means accepted; a nonzero code means `err != nil`).
Each pass stores the observed code in `InitialRC` (line 272).  An exhausted
trace models a worker that is still retrying. -/
def connectLoop (opts : Options) : MState → List Nat → MState × ConnResult
  | st, [] => (st, ⟨none, 0⟩)
  | st, rc :: rest =>
    let st1 := { st with initialRC := rc }
    if rc == rcAccepted then (connectSuccess opts st1, ⟨none, rc⟩)
    else if opts.ConnectRetry && st1.status == connecting then
      connectLoop opts st1 rest
    else
      ({ st1 with status := disconnected, storeOpen := false },
        ⟨some (.connAckError rc), rc⟩)

/-- Model of `Connect` (source lines 241-306): the not-Disconnected guard, the setup,
the empty-server-list check, and the retry loop. -/
def Connect (opts : Options) (st : MState) (rcs : List Nat) :
    MState × ConnResult :=
  if opts.ConnectRetry && st.status != disconnected then
    (st, ⟨none, rcAccepted⟩)
  else
    let stP := connectSetup opts st
    if opts.Servers.length == 0 then (stP, ⟨some .noServers, 0⟩)
    else connectLoop opts stP rcs

/-- The outcome of processing one broker inside `attemptConnection`
(source lines 374-411): whether the loop breaks with an accepted CONNACK,
the protocol version variable after this broker, the last return code, and
the protocol levels at which a CONNACK exchange was performed with this
broker. -/
structure BrokerStep where
  accepted : Bool
  version : Nat
  rc : Nat
  tried : List Nat
deriving DecidableEq

/-- One iteration of the per-broker body of the `attemptConnection` loop, including the
`goto CONN` retry at protocol level 3 after a refused CONNACK at level 4
when the version is not explicitly configured. -/
def tryBroker (expl : Bool) (b : Nat → AttemptOutcome) (v : Nat) : BrokerStep :=
  match b v with
  | .dialFail => ⟨false, v, rcErrNetworkError, []⟩
  | .connack rc =>
    if rc == rcAccepted then ⟨true, v, rc, [v]⟩
    else if !expl && v == 4 then
      match b 3 with
      | .dialFail => ⟨false, 3, rcErrNetworkError, [v]⟩
      | .connack rc2 =>
        if rc2 == rcAccepted then ⟨true, 3, rc2, [v, 3]⟩
        else ⟨false, 3, rc2, [v, 3]⟩
    else ⟨false, v, rc, [v]⟩

/-- The broker loop of `attemptConnection` (source lines 374-411): the
protocol version variable is initialised once before the loop and threads
through every broker.  Returns the final version, the last return code, and
the per-broker lists of protocol levels a CONNACK exchange used. -/
def attemptConnectionLoop (expl : Bool) :
    Nat → Nat → List (Nat → AttemptOutcome) → Nat × Nat × List (List Nat)
  | v, rc, [] => (v, rc, [])
  | v, _, b :: rest =>
    let s := tryBroker expl b v
    if s.accepted then (s.version, s.rc, [s.tried])
    else
      let r := attemptConnectionLoop expl s.version s.rc rest
      (r.1, r.2.1, s.tried :: r.2.2)

/-- Model of `attemptConnection` (source lines 362-425): run the broker loop and, on
success, lock in the protocol version for future attempts.  Returns the
recorded version, the return code, the resulting explicit flag and the
per-broker trace. -/
def attemptConnection (opts : Options) : Nat × Nat × Bool × List (List Nat) :=
  let r := attemptConnectionLoop opts.protocolVersionExplicit
    opts.ProtocolVersion 0 opts.Servers
  if r.2.1 == rcAccepted then (r.1, r.2.1, true, r.2.2)
  else (opts.ProtocolVersion, r.2.1, opts.protocolVersionExplicit, r.2.2)

/-- The backoff update after one failed reconnect attempt (source lines
327-333): double while below the maximum, then clamp to the maximum. -/
def reconnectSleepNext (maxI s : Nat) : Nat :=
  let s1 := if s < maxI then s * 2 else s
  if s1 > maxI then maxI else s1

/-- What one run of the reconnect `for` loop produced. -/
structure ReconnectLoopOut where
  st : MState
  sleep : Nat
  sleeps : List Nat
  succeeded : Bool
deriving DecidableEq

/-- The reconnect `for` loop (source lines 316-338), driven by the return
codes of its successive `attemptConnection` calls (`rc = 0` means the
attempt succeeded, anything else is a failure).  On each failure the worker
sleeps for the current backoff, updates it, and bails out if `Disconnect`
has moved the status to Disconnected.  `sleeps` records the durations
actually slept, in order. -/
def reconnectLoop (opts : Options) : MState → Nat → List Nat → ReconnectLoopOut
  | st, sleep, [] => ⟨st, sleep, [], false⟩
  | st, sleep, rc :: rest =>
    if rc == rcAccepted then ⟨st, sleep, [], true⟩
    else if st.status == disconnected then
      ⟨st, reconnectSleepNext opts.MaxReconnectInterval sleep, [sleep], false⟩
    else
      let r := reconnectLoop opts st (reconnectSleepNext opts.MaxReconnectInterval sleep) rest
      ⟨r.st, r.sleep, sleep :: r.sleeps, r.succeeded⟩

/-- The reconnect worker `reconnect` (source lines 309-352): run the loop
starting from a 1-second backoff; afterwards either abandon (status moved
to Disconnected) or start the comms workers.  The observed return codes are
never written to `InitialRC` (line 321 discards them). -/
def reconnect (opts : Options) (st : MState) (rcs : List Nat) :
    MState × List Nat :=
  let r := reconnectLoop opts st second rcs
  if !r.succeeded then (r.st, r.sleeps)
  else if r.st.status == disconnected then (r.st, r.sleeps)
  else ({ r.st with status := connected }, r.sleeps)

/-- A neutral option set for concrete instances. -/
def baseOpts : Options :=
  { Servers := [], CleanSession := false, AutoReconnect := false,
    ConnectRetry := false, ResumeSubs := false, WriteTimeout := 0,
    MaxReconnectInterval := 0, ProtocolVersion := 4,
    protocolVersionExplicit := false }

/-- A freshly created client state (`NewClient`). -/
def baseState : MState :=
  { status := disconnected, claimed := [], lastIssued := 0, store := [],
    routes := [], storeOpen := false, initialRC := 0 }

/-! Helper lemmas about the registry, the store and the route table. -/

theorem scanID_free (claimed : List Nat) :
    ∀ fuel i, scanID claimed fuel i = 0 ∨ scanID claimed fuel i ∉ claimed := by
  intro fuel
  induction fuel with
  | zero => intro i; left; rfl
  | succ n ih =>
    intro i
    simp only [scanID]
    by_cases h : i % midMax + 1 ∈ claimed
    · simpa [h] using ih (i + 1)
    · simp [h]

theorem getID_free (claimed : List Nat) (cursor : Nat) :
    getID claimed cursor = 0 ∨ getID claimed cursor ∉ claimed :=
  scanID_free claimed midMax cursor

theorem claimID_mem_self (claimed : List Nat) (id : Nat) :
    id ∈ claimID claimed id := by
  unfold claimID
  by_cases h : id ∈ claimed <;> simp [h]

theorem claimID_mem_mono (claimed : List Nat) (id x : Nat) (hx : x ∈ claimed) :
    x ∈ claimID claimed id := by
  unfold claimID
  by_cases h : id ∈ claimed <;> simp [h, hx]

theorem reserveFold_mono (store : List (String × Packet)) :
    ∀ acc x, x ∈ acc →
      x ∈ store.foldl (fun acc kv =>
        match kv.2 with
        | Packet.publish id _ _ _ _ => claimID acc id
        | _ => acc) acc := by
  induction store with
  | nil => intro acc x hx; simpa using hx
  | cons kv rest ih =>
    intro acc x hx
    simp only [List.foldl_cons]
    cases h : kv.2 with
    | publish id qos topic ret pl =>
      exact ih (claimID acc id) x (claimID_mem_mono acc id x hx)
    | subscribe id ts qs => exact ih acc x hx
    | unsubscribe id ts => exact ih acc x hx
    | pubrel id => exact ih acc x hx
    | other => exact ih acc x hx

theorem reserveStoredPublishIDs_mem (opts : Options)
    (store : List (String × Packet)) (claimed : List Nat) (k : String)
    (m qos : Nat) (topic : String) (ret : Bool) (pl : List Nat)
    (hclean : opts.CleanSession = false)
    (hmem : (k, Packet.publish m qos topic ret pl) ∈ store) :
    m ∈ reserveStoredPublishIDs opts store claimed := by
  unfold reserveStoredPublishIDs
  simp only [hclean, Bool.not_false, if_pos]
  induction store generalizing claimed with
  | nil => simp at hmem
  | cons kv rest ih =>
    simp only [List.foldl_cons]
    rcases List.mem_cons.mp hmem with h | h
    · subst h
      exact reserveFold_mono rest (claimID claimed m) m (claimID_mem_self claimed m)
    · cases hkv : kv.2 <;> simp only [hkv] <;> exact ih _ h

theorem lookupKey_putKey (s : List (String × Packet)) (k : String) (p : Packet) :
    lookupKey (putKey s k p) k = some p := by
  simp [lookupKey, putKey, List.find?]

theorem mem_of_mem_foldl_deleteRoute (ts : List String) :
    ∀ r t, t ∈ ts.foldl deleteRoute r → t ∈ r := by
  induction ts with
  | nil => intro r t h; simpa using h
  | cons x xs ih =>
    intro r t h
    have h1 : t ∈ deleteRoute r x := ih (deleteRoute r x) t h
    exact (List.mem_filter.mp h1).1

theorem not_mem_deleteRoute_self (r : List String) (t : String) :
    t ∉ deleteRoute r t := by
  intro h
  have := (List.mem_filter.mp h).2
  simp at this

theorem not_mem_foldl_deleteRoute_of_mem (ts : List String) :
    ∀ r t, t ∈ ts → t ∉ ts.foldl deleteRoute r := by
  induction ts with
  | nil => intro r t h; simp at h
  | cons x xs ih =>
    intro r t h hmem
    simp only [List.foldl_cons] at hmem
    rcases List.mem_cons.mp h with h1 | h1
    · subst h1
      exact not_mem_deleteRoute_self r t (mem_of_mem_foldl_deleteRoute xs (deleteRoute r t) t hmem)
    · exact ih (deleteRoute r x) t h1 hmem

theorem mem_addRoute_iff (r : List String) (x t : String) :
    t ∈ addRoute r x ↔ t = x ∨ t ∈ r := by
  unfold addRoute
  by_cases h : x ∈ r
  · simp only [h, if_pos]
    constructor
    · exact Or.inr
    · rintro (rfl | ht)
      · exact h
      · exact ht
  · simp [h]

theorem mem_foldl_addRoute_iff (fs : List (String × Nat)) :
    ∀ r t, t ∈ fs.foldl (fun r f => addRoute r f.1) r ↔
      t ∈ fs.map (fun f => f.1) ∨ t ∈ r := by
  induction fs with
  | nil => intro r t; simp
  | cons f rest ih =>
    intro r t
    simp only [List.foldl_cons, List.map_cons, List.mem_cons]
    rw [ih (addRoute r f.1) t, mem_addRoute_iff]
    tauto

/-! Claim theorems. -/

/-- Claim C4: `IsConnectionOpen` returns true exactly in the Connected
state; it is false in Disconnected, Connecting and Reconnecting. -/
theorem C4_iff (s : Nat) : IsConnectionOpen s = true ↔ s = connected := by
  unfold IsConnectionOpen
  by_cases h : s == connected
  · simp_all
  · simp_all

/-- Witness for C4 at the concrete states. -/
theorem C4_witness : IsConnectionOpen 3 = true :=
  (C4_iff 3).mpr rfl

/-- Claim C10: calling `Connect` while Disconnected with an empty server
list completes the token with the no-servers error but leaves the client
in Connecting with the persistence store open: the transition back to
Disconnected and the store close of the other failure paths do not occur. -/
theorem C10_noServers (opts : Options) (st : MState) (rcs : List Nat)
    (hdis : st.status = disconnected) (hsrv : opts.Servers = []) :
    (Connect opts st rcs).2.err = some MErr.noServers ∧
    (Connect opts st rcs).1.status = connecting ∧
    (Connect opts st rcs).1.storeOpen = true := by
  unfold Connect connectSetup
  simp only [hdis, hsrv]
  have hguard : (opts.ConnectRetry && (disconnected != disconnected)) = false := by
    simp
  simp only [hguard, Bool.false_eq_true, if_false, List.length_nil]
  by_cases h : opts.ConnectRetry <;> simp [h]

/-- Witness for C10 on a fresh client. -/
theorem C10_witness :
    (Connect baseOpts baseState []).2.err = some MErr.noServers ∧
    (Connect baseOpts baseState []).1.status = connecting ∧
    (Connect baseOpts baseState []).1.storeOpen = true :=
  C10_noServers baseOpts baseState [] rfl rfl

/-- Branch characterization of `Unsubscribe`: either the call leaves the
route table untouched and nothing was enqueued, or the packet went out on
the priority channel and exactly then the routes were deleted. -/
theorem Unsubscribe_routes (opts : Options) (st : MState) (topics : List String)
    (enq : EnqueueOutcome) :
    ((Unsubscribe opts st topics enq).1.routes = st.routes ∧
      (Unsubscribe opts st topics enq).2.enqueued = false) ∨
    ((Unsubscribe opts st topics enq).1.routes = topics.foldl deleteRoute st.routes ∧
      (Unsubscribe opts st topics enq).2.enqueued = true ∧
      enq = EnqueueOutcome.sent ∧
      (st.status == connecting || st.status == reconnecting) = false) := by
  unfold Unsubscribe
  dsimp only
  repeat' split
  all_goals
    first
      | exact Or.inl ⟨rfl, rfl⟩
      | exact Or.inr ⟨rfl, rfl, rfl, by simp_all⟩

/-- Claim C6: an `Unsubscribe` call deletes the route of a topic only after the
UNSUBSCRIBE packet was successfully enqueued; on an enqueue timeout and on
the Connecting/Reconnecting storing paths the route table is unchanged. -/
theorem C6_routes (opts : Options) (st : MState) (topics : List String)
    (enq : EnqueueOutcome) :
    ((Unsubscribe opts st topics enq).2.enqueued = true →
        ∀ t ∈ topics, t ∉ (Unsubscribe opts st topics enq).1.routes) ∧
    ((Unsubscribe opts st topics enq).2.enqueued = false →
        (Unsubscribe opts st topics enq).1.routes = st.routes) ∧
    (enq = EnqueueOutcome.timedOut →
        (Unsubscribe opts st topics enq).1.routes = st.routes) ∧
    (st.status = connecting ∨ st.status = reconnecting →
        (Unsubscribe opts st topics enq).1.routes = st.routes) := by
  rcases Unsubscribe_routes opts st topics enq with ⟨hr, he⟩ | ⟨hr, he, henq, hst⟩
  · refine ⟨?_, fun _ => hr, fun _ => hr, fun _ => hr⟩
    intro h
    rw [h] at he
    exact absurd he (by simp)
  · refine ⟨?_, ?_, ?_, ?_⟩
    · intro _ t ht
      rw [hr]
      exact not_mem_foldl_deleteRoute_of_mem topics st.routes t ht
    · intro h
      rw [he] at h
      exact absurd h (by simp)
    · intro h
      rw [henq] at h
      exact absurd h (by simp)
    · intro h
      rcases h with h | h <;> rw [h] at hst <;>
        simp [connecting, reconnecting] at hst

/-- Witness for C6: a timed-out unsubscribe keeps the route. -/
theorem C6_witness :
    (Unsubscribe baseOpts { baseState with status := connected, routes := [("a")] }
        [("a")] EnqueueOutcome.timedOut).1.routes =
      ({ baseState with status := connected, routes := [("a")] } : MState).routes :=
  (C6_routes baseOpts { baseState with status := connected, routes := [("a")] }
      [("a")] EnqueueOutcome.timedOut).2.2.1 rfl

/-- Claim C8: past the connection-state guards, a `Publish` payload of the
string, byte-slice or byte-buffer kind is converted to the byte
payload, while any other payload kind completes the token with the
unknown-payload-type error and leaves the client state untouched: no packet
is produced, persisted or enqueued. -/
theorem C8_payload (opts : Options) (st : MState) (topic : String) (qos : Nat)
    (ret : Bool) (enq : EnqueueOutcome)
    (hconn : IsConnected opts st.status = true)
    (hrq : ¬(st.status = reconnecting ∧ qos = 0)) :
    ((Publish opts st topic qos ret Payload.other enq).2.err = some MErr.unknownPayloadType ∧
      (Publish opts st topic qos ret Payload.other enq).1 = st ∧
      (Publish opts st topic qos ret Payload.other enq).2.pkt = none ∧
      (Publish opts st topic qos ret Payload.other enq).2.enqueued = false) ∧
    (∀ pl p, (Publish opts st topic qos ret pl enq).2.pkt = some p →
      pktPayload p = payloadBytes pl) := by
  have hguard : (st.status == reconnecting && qos == 0) = false := by
    by_cases h1 : st.status = reconnecting
    · by_cases h2 : qos = 0
      · exact absurd ⟨h1, h2⟩ hrq
      · simp [h2]
    · simp [h1]
  constructor
  · simp [Publish, hconn, hguard]
  · intro pl p hp
    cases pl <;> unfold Publish at hp <;>
      repeat' split at hp
    all_goals try simp_all [pktPayload, payloadBytes]
    all_goals repeat' split at hp
    all_goals try simp_all [pktPayload, payloadBytes]
    all_goals (subst hp; rfl)

/-- Witness for C8: an unclassifiable payload on a connected client. -/
theorem C8_witness :
    (Publish baseOpts { baseState with status := connected } ("t") 1 false
        Payload.other EnqueueOutcome.sent).2.err = some MErr.unknownPayloadType :=
  (C8_payload baseOpts { baseState with status := connected } ("t") 1 false
      EnqueueOutcome.sent (by decide) (by decide)).1.1

/-- On the Connected path with QoS ≥ 1, `Publish` builds a packet, persists
it, and runs the timed enqueue `select`. -/
theorem Publish_connected_enqueue (opts : Options) (st : MState) (topic : String)
    (qos : Nat) (ret : Bool) (pl : Payload) (enq : EnqueueOutcome)
    (hconn : st.status = connected) (hq : qos ≠ 0) (hpl : pl ≠ Payload.other)
    (hid : getID st.claimed st.lastIssued ≠ 0) :
    ∃ p, (Publish opts st topic qos ret pl enq).2.pkt = some p ∧
      1 ≤ pktQos p ∧
      (Publish opts st topic qos ret pl enq).2.wait = some (writeTimeoutVal opts) ∧
      (Publish opts st topic qos ret pl enq).1.store = persistOutbound st.store p ∧
      (enq = EnqueueOutcome.timedOut →
        (Publish opts st topic qos ret pl enq).2.err = some MErr.brokenByTimeout) := by
  cases pl with
  | other => exact absurd rfl hpl
  | str s =>
    refine ⟨Packet.publish (getID st.claimed st.lastIssued) qos topic ret (strBytes s), ?_⟩
    cases enq <;>
      simp [Publish, IsConnected, hconn, connected, connecting, reconnecting, hq,
        hid, pktQos, payloadBytes, Nat.one_le_iff_ne_zero]
  | bytes b =>
    refine ⟨Packet.publish (getID st.claimed st.lastIssued) qos topic ret b, ?_⟩
    cases enq <;>
      simp [Publish, IsConnected, hconn, connected, connecting, reconnecting, hq,
        hid, pktQos, payloadBytes, Nat.one_le_iff_ne_zero]
  | buffer b =>
    refine ⟨Packet.publish (getID st.claimed st.lastIssued) qos topic ret b, ?_⟩
    cases enq <;>
      simp [Publish, IsConnected, hconn, connected, connecting, reconnecting, hq,
        hid, pktQos, payloadBytes, Nat.one_le_iff_ne_zero]

/-- On the Connected path, `Unsubscribe` builds a packet, persists it, and
runs the timed enqueue `select`. -/
theorem Unsubscribe_connected_enqueue (opts : Options) (st : MState)
    (topics : List String) (enq : EnqueueOutcome)
    (hconn : st.status = connected) (hid : getID st.claimed st.lastIssued ≠ 0) :
    ∃ p, (Unsubscribe opts st topics enq).2.pkt = some p ∧
      1 ≤ pktQos p ∧
      (Unsubscribe opts st topics enq).2.wait = some (writeTimeoutVal opts) ∧
      (Unsubscribe opts st topics enq).1.store = persistOutbound st.store p ∧
      (enq = EnqueueOutcome.timedOut →
        (Unsubscribe opts st topics enq).2.err = some MErr.brokenByTimeout) := by
  refine ⟨Packet.unsubscribe (getID st.claimed st.lastIssued) topics, ?_⟩
  cases enq <;>
    simp [Unsubscribe, IsConnected, IsConnectionOpen, hconn, connected,
      connecting, reconnecting, hid, pktQos]

/-- Claim C5: a `Publish` (respectively `Unsubscribe`) that reaches the
enqueue step while Connected waits on a `select` bounded by the configured
write timeout (30 seconds when the option is zero); when the select times
out the token is completed with the broken-by-timeout error while the
packet persisted before the enqueue remains in the store — the store is
exactly the one the persist step produced. -/
theorem C5_enqueue_timeout (opts : Options) (st : MState) (topic : String)
    (qos : Nat) (ret : Bool) (pl : Payload) (topics : List String)
    (enq : EnqueueOutcome)
    (hconn : st.status = connected) (hq : qos ≠ 0) (hpl : pl ≠ Payload.other)
    (hid : getID st.claimed st.lastIssued ≠ 0) :
    ((Publish opts st topic qos ret pl enq).2.wait = some (writeTimeoutVal opts) ∧
      (enq = EnqueueOutcome.timedOut →
        (Publish opts st topic qos ret pl enq).2.err = some MErr.brokenByTimeout ∧
        ∃ p, (Publish opts st topic qos ret pl enq).2.pkt = some p ∧
          (Publish opts st topic qos ret pl enq).1.store = persistOutbound st.store p ∧
          lookupKey (Publish opts st topic qos ret pl enq).1.store
            (outboundKey (pktId p)) = some p)) ∧
    ((Unsubscribe opts st topics enq).2.wait = some (writeTimeoutVal opts) ∧
      (enq = EnqueueOutcome.timedOut →
        (Unsubscribe opts st topics enq).2.err = some MErr.brokenByTimeout ∧
        ∃ p, (Unsubscribe opts st topics enq).2.pkt = some p ∧
          (Unsubscribe opts st topics enq).1.store = persistOutbound st.store p ∧
          lookupKey (Unsubscribe opts st topics enq).1.store
            (outboundKey (pktId p)) = some p)) := by
  obtain ⟨p, hpkt, hqos, hwait, hstore, herr⟩ :=
    Publish_connected_enqueue opts st topic qos ret pl enq hconn hq hpl hid
  obtain ⟨u, hpktu, hqosu, hwaitu, hstoreu, herru⟩ :=
    Unsubscribe_connected_enqueue opts st topics enq hconn hid
  have hper : persistOutbound st.store p = putKey st.store (outboundKey (pktId p)) p := by
    unfold persistOutbound
    rw [if_pos hqos]
  have hperu : persistOutbound st.store u = putKey st.store (outboundKey (pktId u)) u := by
    unfold persistOutbound
    rw [if_pos hqosu]
  refine ⟨⟨hwait, fun ht => ⟨herr ht, p, hpkt, hstore, ?_⟩⟩,
    ⟨hwaitu, fun ht => ⟨herru ht, u, hpktu, hstoreu, ?_⟩⟩⟩
  · rw [hstore, hper]
    exact lookupKey_putKey st.store (outboundKey (pktId p)) p
  · rw [hstoreu, hperu]
    exact lookupKey_putKey st.store (outboundKey (pktId u)) u

/-- Witness for C5: a timed-out QoS 1 publish on a connected client keeps
the packet in the store. -/
theorem C5_witness :
    (Publish baseOpts { baseState with status := connected } ("t") 1 false
        (Payload.bytes []) EnqueueOutcome.timedOut).2.err = some MErr.brokenByTimeout :=
  (((C5_enqueue_timeout baseOpts { baseState with status := connected } ("t") 1 false
      (Payload.bytes []) [] EnqueueOutcome.timedOut rfl (by decide) (by decide)
      (by decide)).1).2 rfl).1

/-- Claim C9: `SubscribeMultiple` adds every topic filter to the route
table exactly as supplied — no `$share/<group>/` or `$queue/` prefix is
stripped — whereas `Subscribe` adds the stripped topic. -/
theorem C9_routes (opts : Options) (st : MState) (filters : List (String × Nat))
    (enq : EnqueueOutcome)
    (hconn : st.status = connected) (hval : validateSubscribeMap filters = true) :
    (∀ t, t ∈ (SubscribeMultiple opts st filters true enq).1.routes ↔
        (t ∈ filters.map (fun f => f.1) ∨ t ∈ st.routes)) ∧
    (∀ topic qos, validateTopicAndQos topic qos = true →
        (Subscribe opts st topic qos true enq).1.routes =
          addRoute st.routes (stripShared topic)) := by
  constructor
  · have hroutes : (SubscribeMultiple opts st filters true enq).1.routes =
        filters.foldl (fun r f => addRoute r f.1) st.routes := by
      cases enq <;>
        · unfold SubscribeMultiple
          simp [IsConnected, IsConnectionOpen, hconn, connected, connecting,
            reconnecting, hval]
          repeat' split
          all_goals simp_all

    intro t
    rw [hroutes]
    exact mem_foldl_addRoute_iff filters st.routes t
  · intro topic qos hv
    cases enq <;>
      · unfold Subscribe
        simp [IsConnected, IsConnectionOpen, hconn, connected, connecting,
          reconnecting, hv]
        repeat' split
        all_goals simp_all

/-- Witness for C9: a shared-subscription filter is routed verbatim by
`SubscribeMultiple`; the stripped form is not added. -/
theorem C9_witness :
    ("$share/g/a/b") ∈ (SubscribeMultiple baseOpts { baseState with status := connected }
        [(("$share/g/a/b"), 1)] true EnqueueOutcome.sent).1.routes ∧
    ¬ ("a/b") ∈ (SubscribeMultiple baseOpts { baseState with status := connected }
        [(("$share/g/a/b"), 1)] true EnqueueOutcome.sent).1.routes := by
  have H := (C9_routes baseOpts { baseState with status := connected }
      [(("$share/g/a/b"), 1)] EnqueueOutcome.sent rfl (by decide)).1
  constructor
  · exact (H ("$share/g/a/b")).mpr (Or.inl (by decide))
  · intro hm
    rcases (H ("a/b")).mp hm with h | h
    · exact absurd h (by decide)
    · exact absurd h (by decide)

/-- Claim C1 (amended): when `ConnectRetry` is enabled and `CleanSession`
is disabled, `Connect` claims, before the connect worker can accept a
CONNACK, the message id of every outbound PUBLISH in the store, so that no
`getID` allocation made while Connecting — in particular the one inside a
concurrent `Publish` — can return such an id.  (When `ConnectRetry` is
disabled the reservation is skipped, and when `CleanSession` is set it does
nothing; see the counterexample.) -/
theorem C1_amended (opts : Options) (st : MState) (k : String)
    (m qos2 : Nat) (topic : String) (ret : Bool) (pl : List Nat)
    (hretry : opts.ConnectRetry = true) (hclean : opts.CleanSession = false)
    (hmem : (k, Packet.publish m qos2 topic ret pl) ∈ st.store) (hm : m ≠ 0) :
    m ∈ (connectSetup opts st).claimed ∧
    ∀ cursor, getID (connectSetup opts st).claimed cursor ≠ m := by
  have hmem2 : m ∈ (connectSetup opts st).claimed := by
    unfold connectSetup
    simp only [hretry, if_true, if_pos]
    exact reserveStoredPublishIDs_mem opts st.store st.claimed k m qos2 topic
      ret pl hclean hmem
  refine ⟨hmem2, fun cursor => ?_⟩
  rcases getID_free (connectSetup opts st).claimed cursor with h | h
  · rw [h]
    exact fun e => hm e.symm
  · intro e
    rw [e] at h
    exact h hmem2

/-- Counterexample to claim C1 as stated: with `ConnectRetry` enabled and
`CleanSession` set, `Connect` proceeds past the not-Disconnected guard but
reserves nothing, and a `Publish` made while Connecting is allocated id 1,
the id of the stored outbound PUBLISH. -/
theorem C1_counterexample :
    (connectSetup { baseOpts with ConnectRetry := true, CleanSession := true }
        { baseState with store := [(outboundKey 1, Packet.publish 1 1 ("a") false [])] }).claimed
      = [] ∧
    (outboundKey 1, Packet.publish 1 1 ("a") false []) ∈
      ({ baseState with store := [(outboundKey 1, Packet.publish 1 1 ("a") false [])] } : MState).store ∧
    (Publish { baseOpts with ConnectRetry := true, CleanSession := true }
        (connectSetup { baseOpts with ConnectRetry := true, CleanSession := true }
          { baseState with store := [(outboundKey 1, Packet.publish 1 1 ("a") false [])] })
        ("t") 1 false (Payload.bytes []) EnqueueOutcome.sent).2.pkt
      = some (Packet.publish 1 1 ("t") false []) := by
  refine ⟨rfl, by decide, by decide⟩

/-- Witness for C1 (amended) on a store holding a PUBLISH with id 5. -/
theorem C1_witness :
    5 ∈ (connectSetup { baseOpts with ConnectRetry := true }
        { baseState with store := [(outboundKey 5, Packet.publish 5 1 ("a") false [])] }).claimed ∧
    getID (connectSetup { baseOpts with ConnectRetry := true }
        { baseState with store := [(outboundKey 5, Packet.publish 5 1 ("a") false [])] }).claimed
      0 ≠ 5 := by
  have H := C1_amended { baseOpts with ConnectRetry := true }
    { baseState with store := [(outboundKey 5, Packet.publish 5 1 ("a") false [])] }
    (outboundKey 5) 5 1 ("a") false [] rfl rfl (by decide) (by decide)
  exact ⟨H.1, H.2 0⟩

/-- A broker processed while the version variable is 3 exchanges CONNACKs
only at level 3 and leaves the version at 3. -/
theorem tryBroker_at_three (expl : Bool) (b : Nat → AttemptOutcome) :
    (tryBroker expl b 3).version = 3 ∧ ∀ x ∈ (tryBroker expl b 3).tried, x = 3 := by
  unfold tryBroker
  cases h : b 3 with
  | dialFail => simp
  | connack rc =>
    by_cases hrc : rc == rcAccepted <;> simp [hrc]

/-- Once the version variable has reached 3, no later broker in the same
`attemptConnection` call is tried at level 4. -/
theorem attemptConnectionLoop_at_three (expl : Bool) :
    ∀ (brokers : List (Nat → AttemptOutcome)) (rc0 : Nat) (tr : List Nat),
      tr ∈ (attemptConnectionLoop expl 3 rc0 brokers).2.2 → (4 : Nat) ∉ tr := by
  intro brokers
  induction brokers with
  | nil =>
    intro rc0 tr h
    simp [attemptConnectionLoop] at h
  | cons b rest ih =>
    intro rc0 tr h
    obtain ⟨hv, htr⟩ := tryBroker_at_three expl b
    unfold attemptConnectionLoop at h
    by_cases hacc : (tryBroker expl b 3).accepted
    · simp only [hacc, if_true, if_pos] at h
      rw [List.mem_singleton] at h
      subst h
      intro h4
      exact absurd (htr 4 h4) (by decide)
    · simp only [hacc, Bool.false_eq_true, if_false] at h
      rcases List.mem_cons.mp h with h1 | h1
      · subst h1
        intro h4
        exact absurd (htr 4 h4) (by decide)
      · rw [hv] at h1
        exact ih (tryBroker expl b 3).rc tr h1

/-- Claim C2 (amended): within one `attemptConnection` call, a broker whose
CONNACK at level 4 is refused (version not pinned) is retried once at level
3; but the downgraded version variable persists for the rest of the server
list, so every subsequent broker is tried at level 3 only — the fallback is
not available anew per broker. -/
theorem C2_amended :
    (∀ (b : Nat → AttemptOutcome) (rc rc2 : Nat),
        b 4 = AttemptOutcome.connack rc → rc ≠ rcAccepted →
        b 3 = AttemptOutcome.connack rc2 →
        (tryBroker false b 4).tried = [4, 3] ∧ (tryBroker false b 4).version = 3) ∧
    (∀ (expl : Bool) (brokers : List (Nat → AttemptOutcome)) (rc0 : Nat)
        (tr : List Nat),
        tr ∈ (attemptConnectionLoop expl 3 rc0 brokers).2.2 → (4 : Nat) ∉ tr) := by
  constructor
  · intro b rc rc2 h4 hrc h3
    have hbe : (rc == rcAccepted) = false := by simp [hrc]
    unfold tryBroker
    rw [h4]
    simp only [hbe, Bool.false_eq_true, if_false]
    rw [h3]
    by_cases h2 : rc2 == rcAccepted <;> simp [h2]
  · exact fun expl brokers => attemptConnectionLoop_at_three expl brokers

/-- Counterexample to claim C2 as stated: two brokers, both refusing every
CONNACK, version not pinned.  The first broker is tried at levels 4 then 3,
but the second broker is tried at level 3 only — the per-broker trace is
`[[4,3],[3]]`, so the fallback was not available anew for the second
broker. -/
theorem C2_counterexample :
    (attemptConnectionLoop false 4 0
        [fun _ => AttemptOutcome.connack 5, fun _ => AttemptOutcome.connack 5]).2.2
      = [[4, 3], [3]] ∧
    ((attemptConnectionLoop false 4 0
        [fun _ => AttemptOutcome.connack 5, fun _ => AttemptOutcome.connack 5]).2.2).get? 1
      = some [3] ∧
    ¬ (4 : Nat) ∈ ([3] : List Nat) :=
  ⟨rfl, rfl, by decide⟩

/-- Witness for C2 (amended): a refusing broker falls back once from 4 to
3, and a broker list entered at level 3 never exchanges a CONNACK at
level 4. -/
theorem C2_witness :
    (tryBroker false (fun _ => AttemptOutcome.connack 5) 4).tried = [4, 3] ∧
    ¬ (4 : Nat) ∈ ([3] : List Nat) := by
  refine ⟨(C2_amended.1 (fun _ => AttemptOutcome.connack 5) 5 5 rfl (by decide) rfl).1, ?_⟩
  exact C2_amended.2 false [fun _ => AttemptOutcome.connack 5] 0 [3] (by
    show ([3] : List Nat) ∈ (attemptConnectionLoop false 3 0
      [fun _ => AttemptOutcome.connack 5]).2.2
    decide)

/-- The reconnect loop never modifies the client state: in particular the
return codes it observes are discarded. -/
theorem reconnectLoop_state (opts : Options) :
    ∀ (rcs : List Nat) (st : MState) (sleep : Nat),
      (reconnectLoop opts st sleep rcs).st = st := by
  intro rcs
  induction rcs with
  | nil => intro st sleep; rfl
  | cons rc rest ih =>
    intro st sleep
    unfold reconnectLoop
    split
    · rfl
    · split
      · rfl
      · exact ih st (reconnectSleepNext opts.MaxReconnectInterval sleep)

/-- Claim C3 (amended): each pass of the `Connect` worker records the
return code of the `attemptConnection` it just made in `InitialRC`, so
`GetInitialRC` returns the code of the most recent CONNACK observed by
`Connect`; the reconnect worker, however, discards the codes its attempts
observe and leaves `GetInitialRC` unchanged. -/
theorem C3_amended (opts : Options) (st st2 : MState) (rc : Nat)
    (rest rcs : List Nat)
    (h : rc = 0 ∨ opts.ConnectRetry = false ∨ st.status ≠ connecting) :
    (connectLoop opts st (rc :: rest)).1.initialRC = rc ∧
    GetInitialRC (reconnect opts st2 rcs).1 = GetInitialRC st2 := by
  constructor
  · unfold connectLoop
    by_cases h0 : rc == rcAccepted
    · simp only [h0, if_true, if_pos]
      unfold connectSuccess
      split <;> rfl
    · simp only [h0, Bool.false_eq_true, if_false]
      have hcr : (opts.ConnectRetry &&
          ({ st with initialRC := rc } : MState).status == connecting) = false := by
        rcases h with h | h | h
        · exact absurd (by simp [h, rcAccepted]) h0
        · simp [h]
        · simp only [Bool.and_eq_false_iff]
          right
          simpa using h
      simp only [hcr, Bool.false_eq_true, if_false]
  · have hst := reconnectLoop_state opts rcs st2 second
    unfold reconnect GetInitialRC
    dsimp only
    rw [hst]
    split
    · rfl
    · split <;> rfl

/-- Counterexample to claim C3 as stated: a reconnect attempt observes a
CONNACK with return code 5, yet `GetInitialRC` afterwards still returns the
previous value 0 — the reconnect path never updates the retained code. -/
theorem C3_counterexample :
    GetInitialRC (reconnect baseOpts { baseState with status := reconnecting } [5]).1 = 0 ∧
    (0 : Nat) ≠ 5 :=
  ⟨rfl, by decide⟩

/-- Witness for C3 (amended): a `Connect` pass observing code 7 records it;
a reconnect worker leaves the retained code alone. -/
theorem C3_witness :
    (connectLoop baseOpts baseState [7]).1.initialRC = 7 ∧
    GetInitialRC (reconnect baseOpts baseState []).1 = GetInitialRC baseState :=
  C3_amended baseOpts baseState baseState 7 [] [] (Or.inr (Or.inl rfl))

/-- The backoff update maps a clamped value to the clamped double. -/
theorem reconnectSleepNext_min (maxI a : Nat) :
    reconnectSleepNext maxI (min a maxI) = min (2 * a) maxI := by
  unfold reconnectSleepNext
  dsimp only
  split_ifs <;> omega

/-- Closed form of the sleeps the reconnect loop performs: starting from a
clamped backoff of `2 ^ k` seconds, a trace of failures sleeps the clamped
powers of two in order. -/
theorem reconnectLoop_sleeps (opts : Options) (st : MState)
    (hst : st.status ≠ disconnected) :
    ∀ (rcs : List Nat) (k : Nat), (∀ rc ∈ rcs, rc ≠ 0) →
      (reconnectLoop opts st
          (min (2 ^ k * second) opts.MaxReconnectInterval) rcs).sleeps =
        (List.range rcs.length).map
          (fun n => min (2 ^ (k + n) * second) opts.MaxReconnectInterval) := by
  intro rcs
  induction rcs with
  | nil =>
    intro k h
    simp [reconnectLoop]
  | cons rc rest ih =>
    intro k h
    have hrc : (rc == rcAccepted) = false := by
      have := h rc (List.mem_cons_self rc rest)
      simp [rcAccepted]
      exact this
    have hd : (st.status == disconnected) = false := by
      simpa using hst
    unfold reconnectLoop
    simp only [hrc, Bool.false_eq_true, if_false, hd]
    have hnext : reconnectSleepNext opts.MaxReconnectInterval
        (min (2 ^ k * second) opts.MaxReconnectInterval) =
        min (2 ^ (k + 1) * second) opts.MaxReconnectInterval := by
      rw [reconnectSleepNext_min]
      congr 1
      ring
    rw [hnext, ih (k + 1) (fun rc2 hm => h rc2 (List.mem_cons_of_mem rc hm))]
    simp only [List.length_cons, List.range_succ_eq_map, List.map_cons,
      List.map_map]
    refine congrArg₂ List.cons (by simp) ?_
    refine List.map_congr_left ?_
    intro n _
    simp only [Function.comp_apply]
    have he : k + 1 + n = k + Nat.succ n := by omega
    rw [he]

/-- Claim C7 (amended): provided the configured maximum reconnect interval
is at least one second, the n-th consecutive-failure
sleep is `min (2 ^ n seconds) MaxReconnectInterval`: it starts at 1 second,
doubles per failure, and is capped at the maximum.  (When the maximum is
below one second the first sleep still lasts a full second and exceeds it;
see the counterexample.) -/
theorem C7_amended (opts : Options) (st : MState) (rcs : List Nat)
    (hmax : second ≤ opts.MaxReconnectInterval)
    (hst : st.status ≠ disconnected)
    (hfail : ∀ rc ∈ rcs, rc ≠ 0) :
    (reconnectLoop opts st second rcs).sleeps =
      (List.range rcs.length).map
        (fun n => min (2 ^ n * second) opts.MaxReconnectInterval) := by
  have hbase := reconnectLoop_sleeps opts st hst rcs 0 hfail
  rw [show min (2 ^ 0 * second) opts.MaxReconnectInterval = second by
    simpa using Nat.min_eq_left hmax] at hbase
  rw [hbase]
  simp

/-- Counterexample to claim C7 as stated: with a configured maximum of half
a second the first reconnect sleep is still one full second, so the sleep
exceeds the maximum and the `min (2 ^ n seconds, Max)` formula fails. -/
theorem C7_counterexample :
    (reconnectLoop { baseOpts with MaxReconnectInterval := 500000000 }
        { baseState with status := reconnecting } second [5]).sleeps = [second] ∧
    second > ({ baseOpts with MaxReconnectInterval := 500000000 } : Options).MaxReconnectInterval ∧
    (reconnectLoop { baseOpts with MaxReconnectInterval := 500000000 }
        { baseState with status := reconnecting } second [5]).sleeps ≠
      (List.range 1).map (fun n => min (2 ^ n * second)
        ({ baseOpts with MaxReconnectInterval := 500000000 } : Options).MaxReconnectInterval) :=
  ⟨rfl, by decide, by decide⟩

/-- Witness for C7 (amended): three failures under a 2-second cap sleep
1 s, 2 s, 2 s. -/
theorem C7_witness :
    (reconnectLoop { baseOpts with MaxReconnectInterval := 2 * second }
        { baseState with status := reconnecting } second [5, 5, 5]).sleeps =
      (List.range 3).map (fun n => min (2 ^ n * second)
        ({ baseOpts with MaxReconnectInterval := 2 * second } : Options).MaxReconnectInterval) :=
  C7_amended { baseOpts with MaxReconnectInterval := 2 * second }
    { baseState with status := reconnecting } [5, 5, 5] (by decide) (by decide)
    (by decide)

end Mqtt
